import Mathlib

/-!
Shallow embedding of the KMS backend of softbuffer (src/backends/kms.rs).

External collaborators (the DRM device ioctls from the `drm` crate, the
`raw-window-handle` display-handle union, and the crate-level error types
which live outside the provided sources) are modelled as an explicit
environment `DeviceEnv` of oracle functions and as plain inductive types.
Machine integers are modelled as `Nat` with explicit `% 2 ^ 16` where the
source truncates (`u32::from(width) as u16`).  Rust panics (`panic!`,
`unwrap`, `expect`, `assert_eq!`) are a distinct outcome constructor, kept
apart from the typed error returns.
-/

set_option autoImplicit false

/-- Modelled from the spec: the runtime platform failure type
(`SoftBufferError` of the crate's `error.rs`, which is not among the
provided sources): it carries an optional human-readable message and an
optional underlying cause. -/
inductive SoftBufferError where
  | PlatformError (msg : Option String) (cause : Option String)
deriving DecidableEq

/-- Modelled from the spec: the construction failure type (`InitError` of
the crate's `error.rs`, not among the provided sources): either the handle
kind is unsupported, or construction failed with a runtime platform error.
(The real type also returns the caller-supplied handle; the handle payload
is irrelevant to the claims and omitted.) -/
inductive InitError where
  | Unsupported
  | Failure (e : SoftBufferError)
deriving DecidableEq

/-- Outcome of a call that can abort the process (Rust panic), fail with a
typed error, or succeed. -/
inductive PanicOr (ε α : Type) where
  | panic (msg : String)
  | err (e : ε)
  | ok (a : α)
deriving DecidableEq

/-- `connector::State` of the drm crate. -/
inductive ConnState where
  | Connected
  | Disconnected
  | Unknown
deriving DecidableEq

/-- A display timing mode; `Mode::size()` yields a `(u16, u16)` pair, so
both fields are below `2 ^ 16` whenever they come from the device. -/
structure Mode where
  width : Nat
  height : Nat
deriving DecidableEq

/-- `connector::Info`: connection state, ordered mode list, ordered
encoder-handle list. -/
structure ConnectorInfo where
  handle : Nat
  state : ConnState
  modes : List Mode
  encoders : List Nat
deriving DecidableEq

/-- `encoder::Info`: the bitmask of CRTCs this encoder can drive, bit `i`
referring to position `i` of the device's CRTC list. -/
structure EncoderInfo where
  possible_crtcs : Nat
deriving DecidableEq

/-- `crtc::Info`. -/
structure CrtcInfo where
  handle : Nat
deriving DecidableEq

/-- `ResourceHandles`: the device's connector and CRTC handle lists. -/
structure ResourceHandles where
  connectors : List Nat
  crtcs : List Nat
deriving DecidableEq

/-- A dumb buffer as created by `create_dumb_buffer((w, h), Xrgb8888, 32)`:
a CPU-mappable block of device memory.  The kernel hands back a fresh
handle; the embedding uses the allocation tick of the call as the handle,
so distinct allocations have distinct handles. -/
structure DumbBuffer where
  handle : Nat
  width : Nat
  height : Nat
deriving DecidableEq

/-- `SharedBuffer`: the combined frame buffer and dumb buffer. -/
structure SharedBuffer where
  fb : Nat
  db : DumbBuffer
deriving DecidableEq

/-- `Buffers`: the pair of shared buffers plus the flag saying whether the
first or the second buffer is currently the front buffer. -/
structure Buffers where
  buf0 : SharedBuffer
  buf1 : SharedBuffer
  first_is_front : Bool
deriving DecidableEq

/-- The external DRM device, as an oracle environment: which ioctls
succeed and what per-handle information they report.  Allocation-style
calls (`create_dumb_buffer`, `add_framebuffer`) are indexed by an
allocation tick so that the two allocations of one `resize` are distinct
objects, as they are on the real device. -/
structure DeviceEnv where
  resources : Option ResourceHandles
  connectorInfo : Nat → Option ConnectorInfo
  encoderInfo : Nat → Option EncoderInfo
  crtcInfo : Nat → Option CrtcInfo
  dumbOk : Nat → Nat → Nat → Bool
  fbOk : Nat → Bool
  mapOk : Nat → Bool
  setCrtcOk : Bool
  flipOk : Nat → Nat → Bool

/-- `create_dumb_buffer((w, h), DrmFourcc::Xrgb8888, 32)`: on success the
kernel allocates a fresh CPU-mappable buffer for a `w × h` image at 32
bits per pixel. -/
def create_dumb_buffer (env : DeviceEnv) (tick w h : Nat) : Option DumbBuffer :=
  if env.dumbOk tick w h then some { handle := tick, width := w, height := h } else none

/-- `add_framebuffer(&db, 24, 32)`: registers a framebuffer over the dumb
buffer, returning a fresh framebuffer handle on success. -/
def add_framebuffer (env : DeviceEnv) (tick : Nat) (_db : DumbBuffer) : Option Nat :=
  if env.fbOk tick then some tick else none

/-- `SharedBuffer::new`: create a dumb buffer and register a framebuffer
over it, converting either failure into a platform error with the
corresponding message. -/
def SharedBuffer.new (env : DeviceEnv) (tick w h : Nat) :
    Except SoftBufferError SharedBuffer :=
  match create_dumb_buffer env tick w h with
  | none => .error (.PlatformError (some "failed to create dumb buffer") none)
  | some db =>
    match add_framebuffer env tick db with
    | none => .error (.PlatformError (some "failed to add framebuffer") none)
    | some fb => .ok { fb := fb, db := db }

/-- `ResourceHandles::filter_crtcs` of the drm crate: keep the CRTCs of
the device list whose position bit is set in the encoder's possible-CRTC
bitmask (`(1 << n) & filter != 0` at list position `n`). -/
def filter_crtcs_from (mask : Nat) : Nat → List Nat → List Nat
  | _, [] => []
  | i, c :: rest =>
    if mask.testBit i then c :: filter_crtcs_from mask (i + 1) rest
    else filter_crtcs_from mask (i + 1) rest

/-- `res.filter_crtcs(enc.possible_crtcs())`. -/
def filter_crtcs (res : ResourceHandles) (mask : Nat) : List Nat :=
  filter_crtcs_from mask 0 res.crtcs

/-- `find_connector`: fetch every connector's info (failed fetches are
silently skipped by the `flat_map`), keep the connected ones, fail with a
platform error if none remain, warn-and-pick-the-first otherwise
(`swap_remove(0)` of a non-empty vector is its first element). -/
def find_connector (env : DeviceEnv) (res : ResourceHandles) :
    Except InitError ConnectorInfo :=
  let coninfo := (res.connectors.filterMap env.connectorInfo).filter
    (fun con => decide (con.state = ConnState.Connected))
  match coninfo with
  | [] => .error (.Failure (.PlatformError (some "No connected DRM connector found") none))
  | con :: _ => .ok con

/-- The encoder loop of `find_crtc`: for each encoder handle in order,
`get_encoder(...).unwrap()` (panic when the fetch fails), then return the
first member of the filtered CRTC list if it is non-empty, fetching its
info (`swbuf_err` turning a fetch failure into a typed platform error). -/
def find_crtc_go (env : DeviceEnv) (res : ResourceHandles) :
    List Nat → PanicOr InitError CrtcInfo
  | [] => .err (.Failure (.PlatformError (some "No compatible CRTC found") none))
  | e :: rest =>
    match env.encoderInfo e with
    | none => .panic "called unwrap on a None value"
    | some enc =>
      match (filter_crtcs res enc.possible_crtcs).head? with
      | some crtcH =>
        match env.crtcInfo crtcH with
        | none => .err (.Failure (.PlatformError (some "Failed to get CRTC") none))
        | some info => .ok info
      | none => find_crtc_go env res rest

/-- `find_crtc`: iterate the connector's encoders in order. -/
def find_crtc (env : DeviceEnv) (res : ResourceHandles) (conn : ConnectorInfo) :
    PanicOr InitError CrtcInfo :=
  find_crtc_go env res conn.encoders

/-- `KmsImpl`: the surface state — negotiated CRTC, connector and mode,
plus the optional buffer pair (none before the first resize). -/
structure KmsImpl where
  crtc : CrtcInfo
  conn : ConnectorInfo
  mode : Mode
  buffers : Option Buffers
deriving DecidableEq

/-- `KmsImpl::new` (surface creation): load the resource handles
(`expect`, a panic on failure), negotiate connector then CRTC (each may
return a typed `InitError`), then take the first mode of the connector
(`expect`, a panic when the mode list is empty). -/
def KmsImpl.new (env : DeviceEnv) : PanicOr InitError KmsImpl :=
  match env.resources with
  | none => .panic "Could not load normal resource ids."
  | some res =>
    match find_connector env res with
    | .error e => .err e
    | .ok conn =>
      match find_crtc env res conn with
      | .panic m => .panic m
      | .err e => .err e
      | .ok crtc =>
        match conn.modes.head? with
        | none => .panic "No modes found on connector"
        | some mode =>
          .ok { crtc := crtc, conn := conn, mode := mode, buffers := none }

/-- The arguments of the `set_crtc` mode-set call recorded by `resize`:
CRTC handle, bound framebuffer, connector list and mode. -/
structure SetCrtcCall where
  crtc : Nat
  fb : Nat
  conns : List Nat
  mode : Mode
deriving DecidableEq

/-- Outcome of a surface operation: a panic, a typed error with the
surface state at the time of the early return, or a result plus the
updated surface state. -/
inductive KRes (α σ : Type) where
  | panic (msg : String)
  | err (e : SoftBufferError) (st : σ)
  | ok (a : α) (st : σ)
deriving DecidableEq

/-- `KmsImpl::resize`: assert that width and height, truncated to `u16`
(`u32::from(width) as u16`, i.e. `% 2 ^ 16`), equal the negotiated mode's
dimensions; allocate the two shared buffers (ticks 0 and 1); store the
pair with `first_is_front := true`; bind the first buffer's framebuffer to
the CRTC with `set_crtc(...).unwrap()` (a panic on failure). -/
def KmsImpl.resize (env : DeviceEnv) (s : KmsImpl) (width height : Nat) :
    KRes SetCrtcCall KmsImpl :=
  if s.mode.width = width % 65536 then
    if s.mode.height = height % 65536 then
      match SharedBuffer.new env 0 width height with
      | .error e => .err e s
      | .ok buf1 =>
        match SharedBuffer.new env 1 width height with
        | .error e => .err e s
        | .ok buf2 =>
          let s2 : KmsImpl :=
            { s with buffers := some { buf0 := buf1, buf1 := buf2, first_is_front := true } }
          if env.setCrtcOk then
            .ok { crtc := s.crtc.handle, fb := buf1.fb,
                  conns := [s.conn.handle], mode := s.mode } s2
          else .panic "set_crtc failed"
    else .panic "assertion failed: mode height"
  else .panic "assertion failed: mode width"

/-- A mapped dumb buffer (`DumbMapping`); only its byte length is
observable through the claims.  `map_dumb_buffer` maps the whole buffer,
which was allocated for `w × h` pixels at 32 bits per pixel. -/
structure DumbMapping where
  len_bytes : Nat
deriving DecidableEq

/-- `map_dumb_buffer`, with `swbuf_err` converting a mapping failure into
a typed platform error. -/
def map_dumb_buffer (env : DeviceEnv) (db : DumbBuffer) :
    Except SoftBufferError DumbMapping :=
  if env.mapOk db.handle then .ok { len_bytes := db.width * db.height * 4 }
  else .error (.PlatformError (some "Failed to map dumb buffer") none)

/-- `BufferImpl`: the mutable buffer view handed to the caller — the CRTC
handle, the framebuffer handle of the chosen shared buffer, and the
mapping of its dumb buffer. -/
structure BufferImpl where
  crtc : Nat
  fb : Nat
  mapping : DumbMapping
deriving DecidableEq

/-- `BufferImpl::pixels()`: `bytemuck::cast_slice` of the byte mapping to
32-bit words; the exposed pixel count is the byte length divided by 4. -/
def BufferImpl.pixels_len (b : BufferImpl) : Nat :=
  b.mapping.len_bytes / 4

/-- `KmsImpl::buffer_mut`: `expect` (a panic) when no resize happened yet;
otherwise pick the buffer the flag currently marks as front, flip the
flag, and map the picked buffer's dumb buffer (a typed error on mapping
failure, the flag staying flipped). -/
def KmsImpl.buffer_mut (env : DeviceEnv) (s : KmsImpl) : KRes BufferImpl KmsImpl :=
  match s.buffers with
  | none => .panic "Need to call resize first..."
  | some bufs =>
    let front := if bufs.first_is_front then bufs.buf0 else bufs.buf1
    let s2 : KmsImpl :=
      { s with buffers := some { bufs with first_is_front := !bufs.first_is_front } }
    match map_dumb_buffer env front.db with
    | .error e => .err e s2
    | .ok mapping =>
      .ok { crtc := s.crtc.handle, fb := front.fb, mapping := mapping } s2

/-- The page-flip flags of the drm crate used by this backend. -/
inductive PageFlipFlag where
  | Event
  | Async
deriving DecidableEq

/-- The arguments of the `page_flip` call submitted by `present`. -/
structure PageFlipCall where
  crtc : Nat
  fb : Nat
  flags : List PageFlipFlag
deriving DecidableEq

/-- Modelled from the spec: `crate::Rect`, the damage rectangle type of
the crate root (not among the provided sources) — a position plus a
non-zero size. -/
structure Rect where
  x : Nat
  y : Nat
  width : Nat
  height : Nat
deriving DecidableEq

/-- `BufferImpl::present_with_damage`: ignore the damage list, submit a
page flip of the buffer's framebuffer with the completion-event flag,
`unwrap` (a panic) on submission failure, and return `Ok(())`. -/
def BufferImpl.present_with_damage (env : DeviceEnv) (b : BufferImpl)
    (_damage : List Rect) : PanicOr SoftBufferError PageFlipCall :=
  if env.flipOk b.crtc b.fb then
    .ok { crtc := b.crtc, fb := b.fb, flags := [PageFlipFlag.Event] }
  else .panic "page_flip failed"

/-- `BufferImpl::present`: present with an empty damage list. -/
def BufferImpl.present (env : DeviceEnv) (b : BufferImpl) :
    PanicOr SoftBufferError PageFlipCall :=
  b.present_with_damage env []

/-- The display-handle union of the raw-window-handle crate (external),
reduced to the DRM variant carrying the card file descriptor and the
other, non-DRM variants. -/
inductive RawDisplayHandle where
  | Drm (fd : Int)
  | Xlib
  | Wayland
  | Windows
  | AppKit
deriving DecidableEq

/-- `ContextInterface::new` for the KMS backend: `display_handle()`
(`unwrap`, a panic when the handle cannot be fetched), then match on the
raw handle — take the file descriptor from the DRM variant, `panic!()` on
every other variant. -/
def context_new (displayHandle : Option RawDisplayHandle) : PanicOr InitError Int :=
  match displayHandle with
  | none => .panic "called unwrap on an Err value"
  | some h =>
    match h with
    | .Drm fd => .ok fd
    | _ => .panic "explicit panic"

/-! ### Concrete fixtures used by witnesses and counterexamples -/

/-- The negotiated 1920×1080 mode of the test device. -/
def mode0 : Mode := { width := 1920, height := 1080 }

/-- A connected connector with one mode and one encoder (handle 5). -/
def conn1 : ConnectorInfo :=
  { handle := 1, state := ConnState.Connected, modes := [mode0], encoders := [5] }

/-- A second connected connector, for the multi-connector scenarios. -/
def conn2 : ConnectorInfo :=
  { handle := 2, state := ConnState.Connected, modes := [mode0], encoders := [5] }

/-- The resource handles of the test device: one connector, two CRTCs. -/
def res0 : ResourceHandles := { connectors := [1], crtcs := [10, 11] }

/-- A healthy test device: connector 1 connected, encoder 5 able to drive
the first CRTC (bit 0), every allocation and submission succeeding. -/
def goodEnv : DeviceEnv :=
  { resources := some res0
    connectorInfo := fun h => if h = 1 then some conn1 else none
    encoderInfo := fun h => if h = 5 then some { possible_crtcs := 1 } else none
    crtcInfo := fun h => if h = 10 then some { handle := 10 } else none
    dumbOk := fun _ _ _ => true
    fbOk := fun _ => true
    mapOk := fun _ => true
    setCrtcOk := true
    flipOk := fun _ _ => true }

/-- The surface created on `goodEnv`, before any resize. -/
def surf0 : KmsImpl :=
  { crtc := { handle := 10 }, conn := conn1, mode := mode0, buffers := none }

/-- The buffer pair allocated by a `resize w h` (ticks 0 and 1), with the
given front/back flag. -/
def resizedBufs (w h : Nat) (front : Bool) : Buffers :=
  { buf0 := { fb := 0, db := { handle := 0, width := w, height := h } }
    buf1 := { fb := 1, db := { handle := 1, width := w, height := h } }
    first_is_front := front }

/-- The surface after a successful 1920×1080 resize on `goodEnv`. -/
def surf1 : KmsImpl :=
  { crtc := { handle := 10 }, conn := conn1, mode := mode0,
    buffers := some (resizedBufs 1920 1080 true) }

/-- `surf1` after one acquire call (flag flipped). -/
def surf2 : KmsImpl :=
  { crtc := { handle := 10 }, conn := conn1, mode := mode0,
    buffers := some (resizedBufs 1920 1080 false) }

/-- `goodEnv` with the CRTC-info fetch failing. -/
def badCrtcEnv : DeviceEnv :=
  { goodEnv with crtcInfo := fun _ => none }

/-- Resource handles with two connectors, for the multi-connector
scenario. -/
def res5 : ResourceHandles := { connectors := [1, 2], crtcs := [10, 11] }

/-- A device with two connected connectors (1 and 2, in that order). -/
def env5 : DeviceEnv :=
  { goodEnv with
    resources := some res5
    connectorInfo := fun h =>
      if h = 1 then some conn1 else if h = 2 then some conn2 else none }

/-- A connected connector whose only encoder (handle 7) can drive no
CRTC. -/
def conn6 : ConnectorInfo :=
  { handle := 3, state := ConnState.Connected, modes := [mode0], encoders := [7] }

/-- A device whose encoder 7 reports an empty possible-CRTC bitmask. -/
def env6 : DeviceEnv :=
  { goodEnv with
    encoderInfo := fun h => if h = 7 then some { possible_crtcs := 0 } else none }

/-! ### Shared shape lemmas -/

/-- The buffer the flag currently marks as front. -/
def Buffers.front (bufs : Buffers) : SharedBuffer :=
  if bufs.first_is_front then bufs.buf0 else bufs.buf1

theorem resize_ok_shape (env : DeviceEnv) (s : KmsImpl) (w h : Nat)
    (call : SetCrtcCall) (s2 : KmsImpl)
    (hres : KmsImpl.resize env s w h = KRes.ok call s2) :
    s.mode.width = w % 65536 ∧ s.mode.height = h % 65536 ∧
    call = { crtc := s.crtc.handle, fb := 0, conns := [s.conn.handle], mode := s.mode } ∧
    s2 = { s with buffers := some (resizedBufs w h true) } := by
  unfold KmsImpl.resize at hres
  by_cases hw : s.mode.width = w % 65536
  · by_cases hh : s.mode.height = h % 65536
    · rw [if_pos hw, if_pos hh] at hres
      unfold SharedBuffer.new create_dumb_buffer add_framebuffer at hres
      cases hd0 : env.dumbOk 0 w h <;> rw [hd0] at hres
      · simp at hres
      cases hf0 : env.fbOk 0 <;> rw [hf0] at hres
      · simp at hres
      cases hd1 : env.dumbOk 1 w h <;> rw [hd1] at hres
      · simp at hres
      cases hf1 : env.fbOk 1 <;> rw [hf1] at hres
      · simp at hres
      cases hsc : env.setCrtcOk <;> rw [hsc] at hres
      · simp at hres
      simp only [if_true, KRes.ok.injEq] at hres
      obtain ⟨hc, hs⟩ := hres
      exact ⟨hw, hh, hc.symm, by simp [← hs, resizedBufs]⟩
    · rw [if_pos hw, if_neg hh] at hres
      simp at hres
  · rw [if_neg hw] at hres
    simp at hres

theorem buffer_mut_some (env : DeviceEnv) (s : KmsImpl) (bufs : Buffers)
    (hb : s.buffers = some bufs)
    (hmap : env.mapOk bufs.front.db.handle = true) :
    KmsImpl.buffer_mut env s = KRes.ok
      { crtc := s.crtc.handle, fb := bufs.front.fb,
        mapping := { len_bytes := bufs.front.db.width * bufs.front.db.height * 4 } }
      { s with buffers := some { bufs with first_is_front := !bufs.first_is_front } } := by
  unfold KmsImpl.buffer_mut map_dumb_buffer
  rw [hb]
  simp only [Buffers.front] at hmap ⊢
  rw [hmap]
  simp

/-! ### Claim theorems -/

/-- C1 (amended): after a successful resize the front/back flag marks the
first buffer front, and each acquire call returns the buffer the flag
currently marks as front — flipping the flag afterwards — so the first
acquire after resize hands out the FIRST buffer of the pair, precisely the
one `set_crtc` just bound to the CRTC (its framebuffer is `call.fb`). -/
theorem C1_first_acquire_returns_bound_buffer (env : DeviceEnv) (s : KmsImpl)
    (w h : Nat) (call : SetCrtcCall) (s2 : KmsImpl)
    (hres : KmsImpl.resize env s w h = KRes.ok call s2)
    (hmap : env.mapOk 0 = true) :
    KmsImpl.buffer_mut env s2 = KRes.ok
      { crtc := s.crtc.handle, fb := call.fb, mapping := { len_bytes := w * h * 4 } }
      { s with buffers := some (resizedBufs w h false) } := by
  obtain ⟨-, -, hcall, hs2⟩ := resize_ok_shape env s w h call s2 hres
  subst hs2
  have hbm := buffer_mut_some env { s with buffers := some (resizedBufs w h true) }
    (resizedBufs w h true) rfl
    (by simpa [resizedBufs, Buffers.front] using hmap)
  simpa [resizedBufs, Buffers.front, hcall] using hbm

theorem C1_witness :
    KmsImpl.buffer_mut goodEnv surf1 = KRes.ok
      { crtc := 10, fb := 0, mapping := { len_bytes := 1920 * 1080 * 4 } }
      { surf0 with buffers := some (resizedBufs 1920 1080 false) } :=
  C1_first_acquire_returns_bound_buffer goodEnv surf0 1920 1080
    { crtc := 10, fb := 0, conns := [1], mode := mode0 } surf1 rfl rfl

/-- C1 counterexample: on the concrete device, resize binds the FIRST
buffer's framebuffer (handle 0) to the CRTC, and the first acquire call
returns that same buffer — not the second buffer of the pair (whose
framebuffer handle, 1, differs). -/
theorem C1_counterexample :
    KmsImpl.resize goodEnv surf0 1920 1080 =
      KRes.ok { crtc := 10, fb := (resizedBufs 1920 1080 true).buf0.fb,
                conns := [1], mode := mode0 } surf1 ∧
    KmsImpl.buffer_mut goodEnv surf1 =
      KRes.ok { crtc := 10, fb := (resizedBufs 1920 1080 true).buf0.fb,
                mapping := { len_bytes := 8294400 } } surf2 ∧
    (resizedBufs 1920 1080 true).buf0.fb ≠ (resizedBufs 1920 1080 true).buf1.fb :=
  ⟨rfl, rfl, by decide⟩

/-- C2 (amended): for every display handle whose kind is not the DRM
variant, context creation PANICS (the `_ => panic!()` arm) rather than
returning a typed `InitError`. -/
theorem C2_mismatched_handle_panics (h : RawDisplayHandle)
    (hnd : ∀ fd, h ≠ RawDisplayHandle.Drm fd) :
    context_new (some h) = PanicOr.panic "explicit panic" := by
  cases h
  case Drm fd => exact absurd rfl (hnd fd)
  all_goals rfl

theorem C2_witness :
    context_new (some RawDisplayHandle.Xlib) = PanicOr.panic "explicit panic" :=
  C2_mismatched_handle_panics RawDisplayHandle.Xlib (fun fd hh => by cases hh)

/-- C2 counterexample: at the concrete non-DRM handles, context creation
panics — it does not return an `InitError`. -/
theorem C2_counterexample :
    context_new (some RawDisplayHandle.Wayland) = PanicOr.panic "explicit panic" ∧
    context_new (some RawDisplayHandle.AppKit) = PanicOr.panic "explicit panic" :=
  ⟨rfl, rfl⟩

/-- C3 (amended): the resize assertions compare the requested dimensions
TRUNCATED TO 16 BITS (`u32::from(width) as u16`) against the negotiated
mode: an assertion fires exactly when the truncated dimensions differ from
the mode's, and any resize whose dimensions merely agree with the mode
modulo 65536 passes the assertions; dimensions exactly equal to the mode's
succeed and bind the CRTC. -/
theorem C3_resize_assert_mod_u16 (env : DeviceEnv) (s : KmsImpl) (w h : Nat)
    (hd0 : env.dumbOk 0 w h = true) (hd1 : env.dumbOk 1 w h = true)
    (hf0 : env.fbOk 0 = true) (hf1 : env.fbOk 1 = true)
    (hsc : env.setCrtcOk = true) :
    ((KmsImpl.resize env s w h = KRes.panic "assertion failed: mode width" ∨
      KmsImpl.resize env s w h = KRes.panic "assertion failed: mode height") ↔
      ¬(s.mode.width = w % 65536 ∧ s.mode.height = h % 65536)) ∧
    (s.mode.width = w → s.mode.height = h → w < 65536 → h < 65536 →
      KmsImpl.resize env s w h =
        KRes.ok { crtc := s.crtc.handle, fb := 0, conns := [s.conn.handle], mode := s.mode }
          { s with buffers := some (resizedBufs w h true) }) := by
  have hok : ∀ (_ : s.mode.width = w % 65536) (_ : s.mode.height = h % 65536),
      KmsImpl.resize env s w h =
        KRes.ok { crtc := s.crtc.handle, fb := 0, conns := [s.conn.handle], mode := s.mode }
          { s with buffers := some (resizedBufs w h true) } := by
    intro hw hh
    unfold KmsImpl.resize SharedBuffer.new create_dumb_buffer add_framebuffer
    rw [if_pos hw, if_pos hh, hd0, hf0, hd1, hf1, hsc]
    simp [resizedBufs]
  refine ⟨⟨?_, ?_⟩, ?_⟩
  · rintro (hp | hp) ⟨hw, hh⟩ <;> rw [hok hw hh] at hp <;> exact KRes.noConfusion hp
  · intro hne
    by_cases hw : s.mode.width = w % 65536
    · have hh : ¬s.mode.height = h % 65536 := fun hh => hne ⟨hw, hh⟩
      right
      unfold KmsImpl.resize
      rw [if_pos hw, if_neg hh]
    · left
      unfold KmsImpl.resize
      rw [if_neg hw]
  · intro hw hh hwlt hhlt
    exact hok (by rw [Nat.mod_eq_of_lt hwlt, hw]) (by rw [Nat.mod_eq_of_lt hhlt, hh])

theorem C3_witness :
    KmsImpl.resize goodEnv surf0 1920 1080 =
      KRes.ok { crtc := 10, fb := 0, conns := [1], mode := mode0 }
        { surf0 with buffers := some (resizedBufs 1920 1080 true) } :=
  (C3_resize_assert_mod_u16 goodEnv surf0 1920 1080 rfl rfl rfl rfl rfl).2
    rfl rfl (by decide) (by decide)

/-- C3 counterexample: the negotiated mode is 1920×1080, the request is
67456×1080 — a dimension mismatch (67456 ≠ 1920) — yet because
67456 mod 65536 = 1920 the assertion does NOT fire and the resize
succeeds. -/
theorem C3_counterexample :
    surf0.mode.width = 1920 ∧ (67456 : Nat) ≠ 1920 ∧
    KmsImpl.resize goodEnv surf0 67456 1080 =
      KRes.ok { crtc := 10, fb := 0, conns := [1], mode := mode0 }
        { surf0 with buffers := some (resizedBufs 67456 1080 true) } :=
  ⟨rfl, by decide, rfl⟩

/-- C4 (amended): acquiring the mutable buffer on a surface that was never
resized PANICS (`expect("Need to call resize first...")`) — it aborts with
a programmer-error assertion rather than returning a `SoftBufferError`,
and it never returns a buffer. -/
theorem C4_acquire_before_resize_panics (env : DeviceEnv) (s : KmsImpl)
    (hb : s.buffers = none) :
    KmsImpl.buffer_mut env s = KRes.panic "Need to call resize first..." := by
  unfold KmsImpl.buffer_mut
  rw [hb]

theorem C4_witness :
    KmsImpl.buffer_mut badCrtcEnv surf0 = KRes.panic "Need to call resize first..." :=
  C4_acquire_before_resize_panics badCrtcEnv surf0 rfl

/-- C4 counterexample: on the concrete never-resized surface, buffer_mut
panics — the outcome is `KRes.panic`, not a `KRes.err` carrying a
`SoftBufferError`. -/
theorem C4_counterexample :
    surf0.buffers = none ∧
    KmsImpl.buffer_mut goodEnv surf0 = KRes.panic "Need to call resize first..." :=
  ⟨rfl, rfl⟩

/-- C5: connector negotiation over the fetched-and-filtered connector
list — empty means a platform error about no connected connector, and a
non-empty list means the first connector in enumeration order is selected
(covering both the exactly-one and the two-or-more cases) with no
failure. -/
theorem C5_find_connector_selection (env : DeviceEnv) (res : ResourceHandles) :
    (((res.connectors.filterMap env.connectorInfo).filter
        (fun con => decide (con.state = ConnState.Connected))) = [] →
      find_connector env res = Except.error
        (InitError.Failure (SoftBufferError.PlatformError
          (some "No connected DRM connector found") none))) ∧
    (∀ c rest,
      ((res.connectors.filterMap env.connectorInfo).filter
        (fun con => decide (con.state = ConnState.Connected))) = c :: rest →
      find_connector env res = Except.ok c) := by
  constructor
  · intro hnil
    simp only [find_connector]
    rw [hnil]
  · intro c rest hcons
    simp only [find_connector]
    rw [hcons]

theorem C5_witness : find_connector env5 res5 = Except.ok conn1 :=
  (C5_find_connector_selection env5 res5).2 conn1 [conn2] rfl

theorem filter_crtcs_from_mem (mask x : Nat) :
    ∀ (i : Nat) (l : List Nat), x ∈ filter_crtcs_from mask i l →
      ∃ j, l.get? j = some x ∧ mask.testBit (i + j) = true := by
  intro i l
  induction l generalizing i with
  | nil => intro hx; simp [filter_crtcs_from] at hx
  | cons c rest ih =>
    intro hx
    unfold filter_crtcs_from at hx
    by_cases hb : mask.testBit i
    · rw [if_pos hb] at hx
      rcases List.mem_cons.mp hx with rfl | hx2
      · exact ⟨0, rfl, by simpa using hb⟩
      · obtain ⟨j, hj, hbit⟩ := ih (i + 1) hx2
        exact ⟨j + 1, by simpa using hj,
          by rw [show i + (j + 1) = i + 1 + j by omega]; exact hbit⟩
    · rw [if_neg hb] at hx
      obtain ⟨j, hj, hbit⟩ := ih (i + 1) hx
      exact ⟨j + 1, by simpa using hj,
        by rw [show i + (j + 1) = i + 1 + j by omega]; exact hbit⟩

theorem find_crtc_go_ok (env : DeviceEnv) (res : ResourceHandles) :
    ∀ (l : List Nat) (info : CrtcInfo), find_crtc_go env res l = PanicOr.ok info →
      ∃ e enc crtcH, e ∈ l ∧ env.encoderInfo e = some enc ∧
        (filter_crtcs res enc.possible_crtcs).head? = some crtcH ∧
        env.crtcInfo crtcH = some info := by
  intro l
  induction l with
  | nil => intro info h; simp [find_crtc_go] at h
  | cons e rest ih =>
    intro info h
    unfold find_crtc_go at h
    cases henc : env.encoderInfo e <;> simp only [henc] at h
    case none => exact PanicOr.noConfusion h
    case some enc =>
    cases hhd : (filter_crtcs res enc.possible_crtcs).head? <;> simp only [hhd] at h
    · obtain ⟨e2, enc2, crtcH, he2, h1, h2, h3⟩ := ih info h
      exact ⟨e2, enc2, crtcH, List.mem_cons_of_mem _ he2, h1, h2, h3⟩
    case some crtcH =>
    cases hci : env.crtcInfo crtcH <;> simp only [hci] at h
    case none => exact PanicOr.noConfusion h
    case some info2 =>
    simp only [PanicOr.ok.injEq] at h
    subst h
    exact ⟨e, enc, crtcH, List.mem_cons_self .., henc, hhd, hci⟩

theorem find_crtc_go_none (env : DeviceEnv) (res : ResourceHandles) :
    ∀ (l : List Nat),
      (∀ e ∈ l, ∃ enc, env.encoderInfo e = some enc ∧
        filter_crtcs res enc.possible_crtcs = []) →
      find_crtc_go env res l = PanicOr.err (InitError.Failure
        (SoftBufferError.PlatformError (some "No compatible CRTC found") none)) := by
  intro l
  induction l with
  | nil => intro _; rfl
  | cons e rest ih =>
    intro hall
    obtain ⟨enc, henc, hempty⟩ := hall e (List.mem_cons_self ..)
    unfold find_crtc_go
    simp only [henc, hempty, List.head?_nil]
    exact ih (fun e2 he2 => hall e2 (List.mem_cons_of_mem _ he2))

/-- C6: every CRTC that surface creation selects is the first member of
the filtered CRTC list of some encoder of the connector — a CRTC of the
device's list whose position bit is set in that encoder's possible-CRTC
bitmask — and when every encoder's filtered list is empty the negotiation
fails with the no-compatible-CRTC platform error. -/
theorem C6_crtc_selection (env : DeviceEnv) (res : ResourceHandles) (conn : ConnectorInfo) :
    (∀ info, find_crtc env res conn = PanicOr.ok info →
      ∃ e enc crtcH, e ∈ conn.encoders ∧ env.encoderInfo e = some enc ∧
        (filter_crtcs res enc.possible_crtcs).head? = some crtcH ∧
        crtcH ∈ res.crtcs ∧
        (∃ j, res.crtcs.get? j = some crtcH ∧ enc.possible_crtcs.testBit j = true) ∧
        env.crtcInfo crtcH = some info) ∧
    ((∀ e ∈ conn.encoders, ∃ enc, env.encoderInfo e = some enc ∧
        filter_crtcs res enc.possible_crtcs = []) →
      find_crtc env res conn = PanicOr.err (InitError.Failure
        (SoftBufferError.PlatformError (some "No compatible CRTC found") none))) := by
  constructor
  · intro info h
    obtain ⟨e, enc, crtcH, he, h1, h2, h3⟩ := find_crtc_go_ok env res conn.encoders info h
    have hmem : crtcH ∈ filter_crtcs res enc.possible_crtcs := by
      cases hl : filter_crtcs res enc.possible_crtcs with
      | nil => rw [hl] at h2; simp at h2
      | cons a rest =>
        rw [hl] at h2
        simp only [List.head?_cons, Option.some.injEq] at h2
        subst h2
        exact List.mem_cons_self ..
    obtain ⟨j, hj, hbit⟩ := filter_crtcs_from_mem enc.possible_crtcs crtcH 0 res.crtcs hmem
    exact ⟨e, enc, crtcH, he, h1, h2, List.get?_mem hj, ⟨j, hj, by simpa using hbit⟩, h3⟩
  · exact find_crtc_go_none env res conn.encoders

theorem C6_witness :
    find_crtc env6 res0 conn6 = PanicOr.err (InitError.Failure
      (SoftBufferError.PlatformError (some "No compatible CRTC found") none)) :=
  (C6_crtc_selection env6 res0 conn6).2 (by
    intro e he
    simp only [conn6, List.mem_singleton] at he
    subst he
    exact ⟨{ possible_crtcs := 0 }, rfl, rfl⟩)

/-- C7: after a successful resize the acquire calls alternate with period
2 — the first acquire returns the buffer with framebuffer 0, the second
the buffer with framebuffer 1 (a different underlying buffer), and the
third again exactly the buffer the first call returned, with the
interleaved present calls submitting their flips without touching the
front/back state. -/
theorem C7_period_two_alternation (env : DeviceEnv) (s : KmsImpl) (w h : Nat)
    (call : SetCrtcCall) (s1 : KmsImpl)
    (hres : KmsImpl.resize env s w h = KRes.ok call s1)
    (hmap0 : env.mapOk 0 = true) (hmap1 : env.mapOk 1 = true)
    (hflip : ∀ c f, env.flipOk c f = true) :
    KmsImpl.buffer_mut env s1 = KRes.ok
      { crtc := s.crtc.handle, fb := 0, mapping := { len_bytes := w * h * 4 } }
      { s with buffers := some (resizedBufs w h false) } ∧
    BufferImpl.present env
        { crtc := s.crtc.handle, fb := 0, mapping := { len_bytes := w * h * 4 } } =
      PanicOr.ok { crtc := s.crtc.handle, fb := 0, flags := [PageFlipFlag.Event] } ∧
    KmsImpl.buffer_mut env { s with buffers := some (resizedBufs w h false) } = KRes.ok
      { crtc := s.crtc.handle, fb := 1, mapping := { len_bytes := w * h * 4 } }
      { s with buffers := some (resizedBufs w h true) } ∧
    BufferImpl.present env
        { crtc := s.crtc.handle, fb := 1, mapping := { len_bytes := w * h * 4 } } =
      PanicOr.ok { crtc := s.crtc.handle, fb := 1, flags := [PageFlipFlag.Event] } ∧
    KmsImpl.buffer_mut env { s with buffers := some (resizedBufs w h true) } = KRes.ok
      { crtc := s.crtc.handle, fb := 0, mapping := { len_bytes := w * h * 4 } }
      { s with buffers := some (resizedBufs w h false) } ∧
    (0 : Nat) ≠ 1 := by
  obtain ⟨-, -, -, hs1⟩ := resize_ok_shape env s w h call s1 hres
  subst hs1
  have hb1 := buffer_mut_some env { s with buffers := some (resizedBufs w h true) }
    (resizedBufs w h true) rfl (by simpa [resizedBufs, Buffers.front] using hmap0)
  have hb2 := buffer_mut_some env { s with buffers := some (resizedBufs w h false) }
    (resizedBufs w h false) rfl (by simpa [resizedBufs, Buffers.front] using hmap1)
  refine ⟨?_, ?_, ?_, ?_, ?_, by decide⟩
  · simpa [resizedBufs, Buffers.front] using hb1
  · simp [BufferImpl.present, BufferImpl.present_with_damage, hflip]
  · simpa [resizedBufs, Buffers.front] using hb2
  · simp [BufferImpl.present, BufferImpl.present_with_damage, hflip]
  · simpa [resizedBufs, Buffers.front] using hb1

theorem C7_witness :
    KmsImpl.buffer_mut goodEnv surf2 = KRes.ok
      { crtc := 10, fb := 1, mapping := { len_bytes := 1920 * 1080 * 4 } }
      { surf0 with buffers := some (resizedBufs 1920 1080 true) } :=
  (C7_period_two_alternation goodEnv surf0 1920 1080
    { crtc := 10, fb := 0, conns := [1], mode := mode0 } surf1 rfl rfl rfl
    (fun _ _ => rfl)).2.2.1

/-- C8: after a successful resize(w, h), the flat 32-bit pixel arrays of
the buffers returned by the first and the second acquire call each have
exactly w × h elements (the mapping covers w × h pixels at 4 bytes
each). -/
theorem C8_pixel_count (env : DeviceEnv) (s : KmsImpl) (w h : Nat)
    (call : SetCrtcCall) (s1 : KmsImpl)
    (hres : KmsImpl.resize env s w h = KRes.ok call s1)
    (hmap0 : env.mapOk 0 = true) (hmap1 : env.mapOk 1 = true) :
    KmsImpl.buffer_mut env s1 = KRes.ok
      { crtc := s.crtc.handle, fb := 0, mapping := { len_bytes := w * h * 4 } }
      { s with buffers := some (resizedBufs w h false) } ∧
    KmsImpl.buffer_mut env { s with buffers := some (resizedBufs w h false) } = KRes.ok
      { crtc := s.crtc.handle, fb := 1, mapping := { len_bytes := w * h * 4 } }
      { s with buffers := some (resizedBufs w h true) } ∧
    BufferImpl.pixels_len
      { crtc := s.crtc.handle, fb := 0, mapping := { len_bytes := w * h * 4 } } = w * h ∧
    BufferImpl.pixels_len
      { crtc := s.crtc.handle, fb := 1, mapping := { len_bytes := w * h * 4 } } = w * h := by
  obtain ⟨-, -, -, hs1⟩ := resize_ok_shape env s w h call s1 hres
  subst hs1
  have hb1 := buffer_mut_some env { s with buffers := some (resizedBufs w h true) }
    (resizedBufs w h true) rfl (by simpa [resizedBufs, Buffers.front] using hmap0)
  have hb2 := buffer_mut_some env { s with buffers := some (resizedBufs w h false) }
    (resizedBufs w h false) rfl (by simpa [resizedBufs, Buffers.front] using hmap1)
  refine ⟨?_, ?_, ?_, ?_⟩
  · simpa [resizedBufs, Buffers.front] using hb1
  · simpa [resizedBufs, Buffers.front] using hb2
  · simp [BufferImpl.pixels_len, Nat.mul_div_cancel]
  · simp [BufferImpl.pixels_len, Nat.mul_div_cancel]

theorem C8_witness :
    BufferImpl.pixels_len
      { crtc := 10, fb := 0, mapping := { len_bytes := 1920 * 1080 * 4 } } = 1920 * 1080 :=
  (C8_pixel_count goodEnv surf0 1920 1080
    { crtc := 10, fb := 0, conns := [1], mode := mode0 } surf1 rfl rfl rfl).2.2.1

theorem find_connector_error_shape (env : DeviceEnv) (res : ResourceHandles)
    (e : InitError) (h : find_connector env res = Except.error e) :
    e = InitError.Failure (SoftBufferError.PlatformError
      (some "No connected DRM connector found") none) := by
  simp only [find_connector] at h
  cases hl : (res.connectors.filterMap env.connectorInfo).filter
      (fun con => decide (con.state = ConnState.Connected)) <;> simp only [hl] at h
  · simp only [Except.error.injEq] at h
    exact h.symm
  · exact Except.noConfusion h

theorem find_crtc_go_err_shape (env : DeviceEnv) (res : ResourceHandles) :
    ∀ (l : List Nat) (e : InitError), find_crtc_go env res l = PanicOr.err e →
      e = InitError.Failure (SoftBufferError.PlatformError
        (some "No compatible CRTC found") none) ∨
      e = InitError.Failure (SoftBufferError.PlatformError
        (some "Failed to get CRTC") none) := by
  intro l
  induction l with
  | nil =>
    intro e h
    simp only [find_crtc_go, PanicOr.err.injEq] at h
    exact Or.inl h.symm
  | cons x rest ih =>
    intro e h
    unfold find_crtc_go at h
    cases henc : env.encoderInfo x <;> simp only [henc] at h
    case none => exact PanicOr.noConfusion h
    case some enc =>
    cases hhd : (filter_crtcs res enc.possible_crtcs).head? <;> simp only [hhd] at h
    case none => exact ih e h
    case some crtcH =>
    cases hci : env.crtcInfo crtcH <;> simp only [hci] at h
    case none =>
      simp only [PanicOr.err.injEq] at h
      exact Or.inr h.symm
    case some info => exact PanicOr.noConfusion h

/-- C9 (amended): surface creation panics when the resource handles
cannot be loaded and when the chosen connector's mode list is empty (and
also when an encoder's info cannot be fetched); the typed `InitError`
outcomes are exactly THREE: no connected connector, no compatible CRTC,
and a failure to fetch the chosen CRTC's info. -/
theorem C9_surface_creation_outcomes (env : DeviceEnv) :
    (env.resources = none →
      KmsImpl.new env = PanicOr.panic "Could not load normal resource ids.") ∧
    (∀ res conn info, env.resources = some res →
      find_connector env res = Except.ok conn →
      find_crtc env res conn = PanicOr.ok info →
      conn.modes = [] →
      KmsImpl.new env = PanicOr.panic "No modes found on connector") ∧
    (∀ e, KmsImpl.new env = PanicOr.err e →
      e = InitError.Failure (SoftBufferError.PlatformError
        (some "No connected DRM connector found") none) ∨
      e = InitError.Failure (SoftBufferError.PlatformError
        (some "No compatible CRTC found") none) ∨
      e = InitError.Failure (SoftBufferError.PlatformError
        (some "Failed to get CRTC") none)) := by
  refine ⟨?_, ?_, ?_⟩
  · intro hn
    unfold KmsImpl.new
    simp only [hn]
  · intro res conn info hres hconn hcrtc hmodes
    unfold KmsImpl.new
    simp only [hres, hconn, hcrtc, hmodes, List.head?_nil]
  · intro e h
    unfold KmsImpl.new at h
    cases hres : env.resources <;> simp only [hres] at h
    case none => exact PanicOr.noConfusion h
    case some res =>
    cases hconn : find_connector env res <;> simp only [hconn] at h
    case error e2 =>
      simp only [PanicOr.err.injEq] at h
      subst h
      exact Or.inl (find_connector_error_shape env res e2 hconn)
    case ok conn =>
    cases hcrtc : find_crtc env res conn <;> simp only [hcrtc] at h
    case panic m => exact PanicOr.noConfusion h
    case err e2 =>
      simp only [PanicOr.err.injEq] at h
      subst h
      rcases find_crtc_go_err_shape env res conn.encoders e2 hcrtc with h1 | h1
      · exact Or.inr (Or.inl h1)
      · exact Or.inr (Or.inr h1)
    case ok crtcI =>
    cases hm : conn.modes.head? <;> simp only [hm] at h
    case none => exact PanicOr.noConfusion h
    case some m => exact PanicOr.noConfusion h

theorem C9_witness :
    KmsImpl.new { goodEnv with resources := none } =
      PanicOr.panic "Could not load normal resource ids." :=
  (C9_surface_creation_outcomes { goodEnv with resources := none }).1 rfl

/-- C9 counterexample: on a device where fetching the chosen CRTC's info
fails, surface creation returns a typed `InitError` whose message is
neither of the two the claim allows — so those two are not the only typed
failure cases. -/
theorem C9_counterexample :
    KmsImpl.new badCrtcEnv = PanicOr.err (InitError.Failure
      (SoftBufferError.PlatformError (some "Failed to get CRTC") none)) ∧
    "Failed to get CRTC" ≠ "No connected DRM connector found" ∧
    "Failed to get CRTC" ≠ "No compatible CRTC found" :=
  ⟨rfl, by decide, by decide⟩

/-- C10: present-with-damage ignores the damage rectangles (it equals the
plain present), never returns a typed error value, submits the page flip
of the buffer's framebuffer with the completion-event flag when the
submission succeeds, and panics (unwrap) when the submission fails. -/
theorem C10_present_never_errors (env : DeviceEnv) (b : BufferImpl) (damage : List Rect) :
    BufferImpl.present_with_damage env b damage = BufferImpl.present env b ∧
    (∀ e, BufferImpl.present_with_damage env b damage ≠ PanicOr.err e) ∧
    (env.flipOk b.crtc b.fb = true →
      BufferImpl.present_with_damage env b damage =
        PanicOr.ok { crtc := b.crtc, fb := b.fb, flags := [PageFlipFlag.Event] }) ∧
    (env.flipOk b.crtc b.fb = false →
      BufferImpl.present_with_damage env b damage = PanicOr.panic "page_flip failed") := by
  unfold BufferImpl.present BufferImpl.present_with_damage
  cases hf : env.flipOk b.crtc b.fb <;> simp [hf]

theorem C10_witness :
    BufferImpl.present_with_damage goodEnv
      { crtc := 10, fb := 0, mapping := { len_bytes := 8294400 } }
      [{ x := 0, y := 0, width := 16, height := 16 }] =
      PanicOr.ok { crtc := 10, fb := 0, flags := [PageFlipFlag.Event] } :=
  (C10_present_never_errors goodEnv
    { crtc := 10, fb := 0, mapping := { len_bytes := 8294400 } }
    [{ x := 0, y := 0, width := 16, height := 16 }]).2.2.1 rfl
